import Mathlib

/-!
# Verification of the ResQweb3 coordination workflow

Shallow embedding of the server-side workflow of the ResQweb3 repository:
the in-memory/database entity store (`server/storage.ts`, `server/database-storage.ts`)
and the Express route handlers (`server/routes.ts`).

Modelling conventions:
* JavaScript numbers (`doublePrecision` columns: wallet balances, donation
  amounts) are modelled as exact rationals `ℚ`; the claims under study are about
  exact balance deltas and the spec's scenario values are small integers, so the
  floating-point rounding of IEEE doubles is abstracted away (NaN is not modelled).
* Nullable columns are `Option` fields.  JavaScript truthiness tests
  (`if (x)` on a nullable number or string) are modelled by `truthyNum` /
  `truthyStr`: `null`/`undefined` and `0` / `""` are falsy.
* JS string comparison (`a <= b`) is lexicographic on the character sequence
  (`jsStrLe`); code points coincide with UTF-16 units on the BMP.
* `Map` collections keyed by id are modelled as lists in insertion order;
  `map.set` on an existing key is an in-place replacement, modelled by `List.map`
  with an id test.  `Array.from(map.values()).find(...)` is `List.find?`.
* `createdAt` timestamps are never read by any modelled behaviour and are omitted.
* The `resources`, `volunteers` and session collections are untouched by the
  routes modelled here and are omitted from the state.
* The live storage is `DatabaseStorage` (storage.ts line 348).  Zod's `parse`
  strips the `status` field injected by the routes (the insert schemas do not
  pick `status`), and `DatabaseStorage.createDonation` / `createResourceRequest`
  / `createEmergency` default it (`donation.status || 'pending'`, etc.), so every
  created donation/request/emergency carries its default status.
* Authentication is resolved before the handlers run (`req.user`); handlers take
  the acting user as a parameter.
-/

namespace ResQ

/-- JS lexicographic comparison of character sequences (used by `a <= b` on strings). -/
def charListLe : List Char → List Char → Bool
  | [], _ => true
  | _ :: _, [] => false
  | a :: as, b :: bs =>
    if a.toNat < b.toNat then true
    else if b.toNat < a.toNat then false
    else charListLe as bs

/-- JS `a <= b` on strings: lexicographic order on the character sequence. -/
def jsStrLe (a b : String) : Bool := charListLe a.data b.data

/-- JS truthiness of a nullable string: `null`/`undefined` and `""` are falsy. -/
def truthyStr : Option String → Bool
  | none => false
  | some s => s != ""

/-- JS truthiness of a nullable number: `null`/`undefined` and `0` are falsy. -/
def truthyNum : Option ℚ → Bool
  | none => false
  | some a => a != 0

/-- A row of the `users` table (`shared/schema.ts`). -/
structure User where
  id : Nat
  username : String
  password : String
  name : String
  userType : String
  pinCode : Option String
  pinCodeRangeStart : Option String
  pinCodeRangeEnd : Option String
  assignedFireStationId : Option Nat
  walletBalance : Option ℚ
  registrationId : Option String
  specialization : Option String
  deriving Repr, DecidableEq

/-- A row of the `resource_requests` table (timestamps omitted). -/
structure ResourceRequest where
  id : Nat
  requesterId : Nat
  resourceType : String
  quantity : Int
  urgency : String
  description : Option String
  status : String
  deriving Repr, DecidableEq

/-- A row of the `donations` table (timestamps omitted). -/
structure Donation where
  id : Nat
  donorId : Nat
  recipientId : Nat
  resourceType : Option String
  resourceQuantity : Option Int
  amount : Option ℚ
  currency : Option String
  status : String
  deriving Repr, DecidableEq

/-- A row of the `emergencies` table (timestamps omitted). -/
structure Emergency where
  id : Nat
  title : String
  description : String
  reporterId : Nat
  severity : String
  location : String
  resourcesNeeded : Option (List String)
  status : String
  deriving Repr, DecidableEq

/-- A row of the `notifications` table (timestamps omitted). -/
structure Notification where
  id : Nat
  userId : Nat
  title : String
  content : String
  type : String
  read : Bool
  deriving Repr, DecidableEq

/-- The entity store: each collection in insertion order plus its id counter. -/
structure StoreState where
  users : List User
  resourceRequests : List ResourceRequest
  donations : List Donation
  emergencies : List Emergency
  notifications : List Notification
  nextRequestId : Nat
  nextDonationId : Nat
  nextEmergencyId : Nat
  nextNotificationId : Nat
  deriving Repr, DecidableEq

/-- `storage.getUser(id)`. -/
def getUser (s : StoreState) (id : Nat) : Option User :=
  s.users.find? (fun u => u.id == id)

/-- `storage.updateUserWalletBalance(userId, amount)`:
`user.walletBalance = (user.walletBalance || 0) + amount`. -/
def updateUserWalletBalance (s : StoreState) (userId : Nat) (amount : ℚ) :
    Option User × StoreState :=
  match getUser s userId with
  | none => (none, s)
  | some u =>
    let u' := { u with walletBalance := some (u.walletBalance.getD 0 + amount) }
    (some u', { s with users := s.users.map (fun v => if v.id == userId then u' else v) })

/-- `storage.getFireStationsByPinCode(pinCode)`: first user that is a fire station,
whose range bounds are truthy (non-null, non-empty), with
`pinCode >= rangeStart && pinCode <= rangeEnd` under JS string comparison. -/
def getFireStationsByPinCode (s : StoreState) (pinCode : String) : Option User :=
  s.users.find? (fun u =>
    u.userType == "firestation" &&
    truthyStr u.pinCodeRangeStart &&
    truthyStr u.pinCodeRangeEnd &&
    jsStrLe (u.pinCodeRangeStart.getD "") pinCode &&
    jsStrLe pinCode (u.pinCodeRangeEnd.getD ""))

/-- `storage.getAllFireStations()`. -/
def getAllFireStations (s : StoreState) : List User :=
  s.users.filter (fun u => u.userType == "firestation")

/-- `storage.getAllNGOs()`. -/
def getAllNGOs (s : StoreState) : List User :=
  s.users.filter (fun u => u.userType == "ngo")

/-- Fields of a resource-request insert (validated payload with requester injected). -/
structure RequestInsert where
  requesterId : Nat
  resourceType : String
  quantity : Int
  urgency : String
  description : Option String
  deriving Repr, DecidableEq

/-- `storage.createResourceRequest`: append with a fresh id; the status field is
stripped by zod and defaulted to `"pending"` by the storage layer. -/
def createResourceRequest (s : StoreState) (r : RequestInsert) :
    ResourceRequest × StoreState :=
  let req : ResourceRequest :=
    { id := s.nextRequestId, requesterId := r.requesterId,
      resourceType := r.resourceType, quantity := r.quantity,
      urgency := r.urgency, description := r.description, status := "pending" }
  (req, { s with resourceRequests := s.resourceRequests ++ [req],
                 nextRequestId := s.nextRequestId + 1 })

/-- `storage.updateResourceRequestStatus(requestId, status)`: unconditional
status overwrite of the found request; `undefined` when the id is absent. -/
def updateResourceRequestStatus (s : StoreState) (requestId : Nat) (status : String) :
    Option ResourceRequest × StoreState :=
  match s.resourceRequests.find? (fun r => r.id == requestId) with
  | none => (none, s)
  | some r =>
    let r' := { r with status := status }
    (some r', { s with resourceRequests :=
      s.resourceRequests.map (fun v => if v.id == requestId then r' else v) })

/-- Fields of a donation insert (validated payload with donor injected). -/
structure DonationInsert where
  donorId : Nat
  recipientId : Nat
  resourceType : Option String
  resourceQuantity : Option Int
  amount : Option ℚ
  currency : Option String
  deriving Repr, DecidableEq

/-- `storage.createDonation`: append with a fresh id; the status field is stripped
by zod and defaulted to `"pending"` by the storage layer. -/
def createDonation (s : StoreState) (d : DonationInsert) : Donation × StoreState :=
  let don : Donation :=
    { id := s.nextDonationId, donorId := d.donorId, recipientId := d.recipientId,
      resourceType := d.resourceType, resourceQuantity := d.resourceQuantity,
      amount := d.amount, currency := d.currency, status := "pending" }
  (don, { s with donations := s.donations ++ [don],
                 nextDonationId := s.nextDonationId + 1 })

/-- Fields of an emergency insert (validated payload with reporter injected). -/
structure EmergencyInsert where
  title : String
  description : String
  reporterId : Nat
  severity : String
  location : String
  resourcesNeeded : Option (List String)
  deriving Repr, DecidableEq

/-- `storage.createEmergency`: append with a fresh id; status defaults to `"active"`. -/
def createEmergency (s : StoreState) (e : EmergencyInsert) : Emergency × StoreState :=
  let em : Emergency :=
    { id := s.nextEmergencyId, title := e.title, description := e.description,
      reporterId := e.reporterId, severity := e.severity, location := e.location,
      resourcesNeeded := e.resourcesNeeded, status := "active" }
  (em, { s with emergencies := s.emergencies ++ [em],
                nextEmergencyId := s.nextEmergencyId + 1 })

/-- Fields of a notification insert as passed by the routes. -/
structure NotificationInsert where
  userId : Nat
  title : String
  content : String
  type : String
  deriving Repr, DecidableEq

/-- `storage.createNotification`: append with a fresh id and `read: false`
(the storage layer forces `read := false` regardless of the input). -/
def createNotification (s : StoreState) (n : NotificationInsert) :
    Notification × StoreState :=
  let notif : Notification :=
    { id := s.nextNotificationId, userId := n.userId, title := n.title,
      content := n.content, type := n.type, read := false }
  (notif, { s with notifications := s.notifications ++ [notif],
                   nextNotificationId := s.nextNotificationId + 1 })

/-- `storage.markNotificationAsRead(notificationId)`: set `read := true` on the
found notification; `undefined` when the id is absent. -/
def markNotificationAsRead (s : StoreState) (notificationId : Nat) :
    Option Notification × StoreState :=
  match s.notifications.find? (fun n => n.id == notificationId) with
  | none => (none, s)
  | some n =>
    let n' := { n with read := true }
    (some n', { s with notifications :=
      s.notifications.map (fun v => if v.id == notificationId then n' else v) })

/-! ## Route handlers (`server/routes.ts`)

`ApiResult` models the HTTP outcomes the handlers produce: `ok` (200/201),
`unauthorized` (403), `invalidInput` (400), `notFound` (404), each carrying the
response message.  Handlers receive the authenticated acting user. -/

inductive ApiResult (α : Type) where
  | ok : α → ApiResult α
  | unauthorized : String → ApiResult α
  | invalidInput : String → ApiResult α
  | notFound : String → ApiResult α
  deriving Repr, DecidableEq

/-- Request body of `POST /api/resource-requests` (fields picked by
`insertResourceRequestSchema`; `requesterId`/`status` are injected server-side). -/
structure RequestPayload where
  resourceType : String
  quantity : Int
  urgency : String
  description : Option String
  deriving Repr, DecidableEq

/-- The urgency enum of `insertResourceRequestSchema`. -/
def validUrgency (u : String) : Bool :=
  (["low", "medium", "high", "critical"] : List String).contains u

/-- `POST /api/resource-requests`: role gate, zod validation (urgency enum),
persist with default status, placeholder loop over an empty local-user list,
then one notification per NGO. -/
def createResourceRequestRoute (s : StoreState) (actor : User) (p : RequestPayload) :
    ApiResult ResourceRequest × StoreState :=
  if actor.userType != "firestation" then
    (ApiResult.unauthorized "Only fire stations can create resource requests", s)
  else if !(validUrgency p.urgency) then
    (ApiResult.invalidInput "Invalid request data", s)
  else
    let (req, s1) := createResourceRequest s
      ⟨actor.id, p.resourceType, p.quantity, p.urgency, p.description⟩
    let content := actor.name ++ " is requesting " ++ toString p.quantity ++ " " ++ p.resourceType
    let ngos := getAllNGOs s1
    let s2 := ngos.foldl
      (fun acc ngo => (createNotification acc ⟨ngo.id, "Resource Request", content, "request"⟩).2)
      s1
    (ApiResult.ok req, s2)

/-- The status set accepted by `PATCH /api/resource-requests/:id`. -/
def validRequestStatuses : List String := ["pending", "fulfilled", "cancelled"]

/-- `PATCH /api/resource-requests/:id`: status whitelist, then unconditional
status update; 404 when the request id is absent. -/
def updateResourceRequestStatusRoute (s : StoreState) (requestId : Nat) (status : String) :
    ApiResult ResourceRequest × StoreState :=
  if !(validRequestStatuses.contains status) then
    (ApiResult.invalidInput "Invalid status", s)
  else
    match updateResourceRequestStatus s requestId status with
    | (none, s') => (ApiResult.notFound "Resource request not found", s')
    | (some r, s') => (ApiResult.ok r, s')

/-- Request body of `POST /api/donations` (fields picked by `insertDonationSchema`;
`donorId`/`status` are injected server-side).  All donation-kind fields are
nullable and no exclusivity refinement exists in the schema or the route. -/
structure DonationPayload where
  recipientId : Nat
  resourceType : Option String
  resourceQuantity : Option Int
  amount : Option ℚ
  currency : Option String
  deriving Repr, DecidableEq

/-- The wallet block of `POST /api/donations`:
`if (validatedData.amount && validatedData.currency) { debit donor; credit recipient }`. -/
def donationWalletPhase (s : StoreState) (donorId : Nat) (p : DonationPayload) : StoreState :=
  if truthyNum p.amount && truthyStr p.currency then
    let s1 := (updateUserWalletBalance s donorId (-(p.amount.getD 0))).2
    (updateUserWalletBalance s1 p.recipientId (p.amount.getD 0)).2
  else s

/-- The recipient-notification block of `POST /api/donations`: notify the
recipient when it exists, silently skip otherwise. -/
def donationNotifyPhase (s : StoreState) (actor : User) (p : DonationPayload) :
    StoreState :=
  match getUser s p.recipientId with
  | some recipient =>
    let content :=
      if truthyStr p.resourceType then
        actor.name ++ " donated " ++ toString (p.resourceQuantity.getD 0) ++ " "
          ++ p.resourceType.getD ""
      else
        actor.name ++ " donated " ++ toString (p.amount.getD 0) ++ " "
          ++ p.currency.getD ""
    (createNotification s ⟨recipient.id, "New Donation", content, "donation"⟩).2
  | none => s

/-- `POST /api/donations`: validation always succeeds on a well-typed payload
(every picked donation-kind field is nullable), wallet transfer when amount and
currency are truthy, persist the donation, then notify the recipient if it exists. -/
def createDonationRoute (s : StoreState) (actor : User) (p : DonationPayload) :
    ApiResult Donation × StoreState :=
  let s1 := donationWalletPhase s actor.id p
  let (don, s2) := createDonation s1
    ⟨actor.id, p.recipientId, p.resourceType, p.resourceQuantity, p.amount, p.currency⟩
  (ApiResult.ok don, donationNotifyPhase s2 actor p)

/-- The donation record `POST /api/donations` persists for payload `p` (the
wallet phase leaves `nextDonationId` unchanged, so the fresh id is read off `s`). -/
def routeDonation (s : StoreState) (actor : User) (p : DonationPayload) : Donation :=
  { id := s.nextDonationId, donorId := actor.id, recipientId := p.recipientId,
    resourceType := p.resourceType, resourceQuantity := p.resourceQuantity,
    amount := p.amount, currency := p.currency, status := "pending" }

/-- Request body of `POST /api/emergencies` (fields picked by
`insertEmergencySchema`; `reporterId`/`status` are injected server-side). -/
structure EmergencyPayload where
  title : String
  description : String
  severity : String
  location : String
  resourcesNeeded : Option (List String)
  deriving Repr, DecidableEq

/-- The severity enum of `insertEmergencySchema`. -/
def validSeverity (sev : String) : Bool :=
  (["low", "medium", "high", "critical"] : List String).contains sev

/-- The notification each fire station other than the reporter receives. -/
def emergencyNotifInsert (actor : User) (title : String) (station : User) :
    NotificationInsert :=
  ⟨station.id, "Emergency Alert", actor.name ++ " reported: " ++ title, "emergency"⟩

/-- `POST /api/emergencies`: role gate, zod validation (severity enum), persist
with default status, then one notification per fire station other than the reporter. -/
def createEmergencyRoute (s : StoreState) (actor : User) (p : EmergencyPayload) :
    ApiResult Emergency × StoreState :=
  if actor.userType != "firestation" then
    (ApiResult.unauthorized "Only fire stations can create emergencies", s)
  else if !(validSeverity p.severity) then
    (ApiResult.invalidInput "Invalid emergency data", s)
  else
    let (em, s1) := createEmergency s
      ⟨p.title, p.description, actor.id, p.severity, p.location, p.resourcesNeeded⟩
    let otherStations := (getAllFireStations s1).filter (fun st => st.id != actor.id)
    let s2 := otherStations.foldl
      (fun acc st => (createNotification acc (emergencyNotifInsert actor p.title st)).2)
      s1
    (ApiResult.ok em, s2)

/-- `PATCH /api/notifications/:id`: mark as read; 404 when the id is absent. -/
def markNotificationReadRoute (s : StoreState) (notificationId : Nat) :
    ApiResult Notification × StoreState :=
  match markNotificationAsRead s notificationId with
  | (none, s') => (ApiResult.notFound "Notification not found", s')
  | (some n, s') => (ApiResult.ok n, s')

/-- Whether a roster entry's declared range contains a postal code.
Modelled from the spec: "the first fire station ... whose range contains the
code under lexicographic string comparison (`start ≤ code ≤ end`)" — the spec
treats any present `[start, end]` pair as a range, with no non-emptiness test. -/
def specRangeContains (u : User) (code : String) : Bool :=
  match u.pinCodeRangeStart, u.pinCodeRangeEnd with
  | some st, some en => jsStrLe st code && jsStrLe code en
  | _, _ => false

/-- The predicate `getFireStationsByPinCode` actually tests for each roster entry. -/
def stationMatches (code : String) (u : User) : Bool :=
  u.userType == "firestation" &&
  truthyStr u.pinCodeRangeStart &&
  truthyStr u.pinCodeRangeEnd &&
  jsStrLe (u.pinCodeRangeStart.getD "") code &&
  jsStrLe code (u.pinCodeRangeEnd.getD "")

/-! ## Concrete fixtures used by counterexamples and witnesses -/

/-- A resident ("local" user) with wallet balance 100. -/
def resident1 : User :=
  { id := 1, username := "res1", password := "pw", name := "Res One",
    userType := "local", pinCode := some "150", pinCodeRangeStart := none,
    pinCodeRangeEnd := none, assignedFireStationId := some 2,
    walletBalance := some 100, registrationId := none, specialization := none }

/-- A fire station serving the range "100"–"200", wallet balance 0. -/
def station2 : User :=
  { id := 2, username := "st2", password := "pw", name := "Station-9",
    userType := "firestation", pinCode := none, pinCodeRangeStart := some "100",
    pinCodeRangeEnd := some "200", assignedFireStationId := none,
    walletBalance := some 0, registrationId := some "R2", specialization := none }

/-- A second fire station serving the range "300"–"400". -/
def station3 : User :=
  { id := 3, username := "st3", password := "pw", name := "Station-3",
    userType := "firestation", pinCode := none, pinCodeRangeStart := some "300",
    pinCodeRangeEnd := some "400", assignedFireStationId := none,
    walletBalance := some 0, registrationId := some "R3", specialization := none }

/-- An NGO user. -/
def ngo4 : User :=
  { id := 4, username := "ngo4", password := "pw", name := "NGO Four",
    userType := "ngo", pinCode := some "150", pinCodeRangeStart := none,
    pinCodeRangeEnd := none, assignedFireStationId := none,
    walletBalance := some 0, registrationId := some "R4",
    specialization := some "medical" }

/-- A resource request that has already reached the terminal status "fulfilled". -/
def fulfilledRequest : ResourceRequest :=
  { id := 1, requesterId := 2, resourceType := "Water", quantity := 50,
    urgency := "high", description := none, status := "fulfilled" }

/-- An unread notification for the resident. -/
def unreadNotification : Notification :=
  { id := 1, userId := 1, title := "t", content := "c", type := "donation",
    read := false }

/-- A store with one resident, two fire stations, one NGO, one fulfilled
resource request and one unread notification. -/
def baseState : StoreState :=
  { users := [resident1, station2, station3, ngo4],
    resourceRequests := [fulfilledRequest],
    donations := [],
    emergencies := [],
    notifications := [unreadNotification],
    nextRequestId := 2, nextDonationId := 1, nextEmergencyId := 1,
    nextNotificationId := 2 }

/-- A fire station whose declared range starts at the empty string. -/
def stationEmptyRange : User :=
  { id := 9, username := "st9", password := "pw", name := "Station-Empty",
    userType := "firestation", pinCode := none, pinCodeRangeStart := some "",
    pinCodeRangeEnd := some "9", assignedFireStationId := none,
    walletBalance := some 0, registrationId := some "R9", specialization := none }

/-- A store whose only user is `stationEmptyRange`. -/
def emptyRangeState : StoreState :=
  { users := [stationEmptyRange], resourceRequests := [], donations := [],
    emergencies := [], notifications := [], nextRequestId := 1,
    nextDonationId := 1, nextEmergencyId := 1, nextNotificationId := 1 }

/-! ## Generic lemmas about keyed replacement in lists -/

theorem find?_replace_of_ne {α : Type} (key : α → Nat) (l : List α) (i j : Nat) (u' : α)
    (hk : key u' = i) (hne : j ≠ i) :
    (l.map (fun v => if key v == i then u' else v)).find? (fun v => key v == j)
      = l.find? (fun v => key v == j) := by
  induction l with
  | nil => rfl
  | cons a t ih =>
    simp only [List.map_cons]
    by_cases h : key a = i
    · rw [if_pos (by simpa using h)]
      rw [List.find?_cons_of_neg _ (by simp [hk, Ne.symm hne]),
          List.find?_cons_of_neg _ (by simp [h, Ne.symm hne]), ih]
    · rw [if_neg (by simpa using h)]
      by_cases hj : key a = j
      · rw [List.find?_cons_of_pos _ (by simpa using hj),
            List.find?_cons_of_pos _ (by simpa using hj)]
      · rw [List.find?_cons_of_neg _ (by simpa using hj),
            List.find?_cons_of_neg _ (by simpa using hj), ih]

theorem find?_replace_of_eq {α : Type} (key : α → Nat) (l : List α) (i : Nat) (u' d : α)
    (hf : l.find? (fun v => key v == i) = some d) (hk : key u' = i) :
    (l.map (fun v => if key v == i then u' else v)).find? (fun v => key v == i)
      = some u' := by
  induction l with
  | nil => simp at hf
  | cons a t ih =>
    simp only [List.map_cons]
    by_cases h : key a = i
    · rw [if_pos (by simpa using h)]
      rw [List.find?_cons_of_pos _ (by simpa using hk)]
    · rw [if_neg (by simpa using h)]
      rw [List.find?_cons_of_neg _ (by simpa using h)]
      rw [List.find?_cons_of_neg _ (by simpa using h)] at hf
      exact ih hf

theorem count_key_filter_of_nodup {α : Type} (key : α → Nat) (q : α → Bool) (u : α) :
    ∀ l : List α, (l.map key).Nodup → u ∈ l →
      ((l.filter q).map key).count (key u) = if q u then 1 else 0 := by
  intro l
  induction l with
  | nil => intro _ hu; cases hu
  | cons a t ih =>
    intro hnd hu
    simp only [List.map_cons, List.nodup_cons] at hnd
    obtain ⟨ha, hnd'⟩ := hnd
    rcases List.mem_cons.mp hu with rfl | hu'
    · have hz : ((t.filter q).map key).count (key u) = 0 := by
        rw [List.count_eq_zero]
        intro hmem
        obtain ⟨v, hv, hvid⟩ := List.mem_map.mp hmem
        exact ha (List.mem_map.mpr ⟨v, (List.mem_filter.mp hv).1, hvid⟩)
      by_cases hq : q u = true
      · simp [List.filter_cons, hq, List.count_cons, hz]
      · simp only [Bool.not_eq_true] at hq
        simp [List.filter_cons, hq, hz]
    · have hne : key a ≠ key u := by
        intro he
        exact ha (he ▸ List.mem_map.mpr ⟨u, hu', rfl⟩)
      by_cases hq : q a = true
      · simp only [List.filter_cons, hq, if_true, List.map_cons, List.count_cons]
        rw [ih hnd' hu']
        simpa using hne
      · simp only [Bool.not_eq_true] at hq
        simp only [List.filter_cons, hq, Bool.false_eq_true, if_false]
        exact ih hnd' hu'

theorem length_filter_eq_count_map {α : Type} (key : α → Nat) (l : List α) (x : Nat) :
    (l.filter (fun v => key v == x)).length = (l.map key).count x := by
  rw [List.count, List.countP_map]
  rw [← List.countP_eq_length_filter]
  rfl

/-! ## State-preservation lemmas for the store operations -/

@[simp] theorem updateUserWalletBalance_donations (s : StoreState) (i : Nat) (amt : ℚ) :
    (updateUserWalletBalance s i amt).2.donations = s.donations := by
  cases hg : getUser s i <;> simp [updateUserWalletBalance, hg]

@[simp] theorem updateUserWalletBalance_notifications (s : StoreState) (i : Nat) (amt : ℚ) :
    (updateUserWalletBalance s i amt).2.notifications = s.notifications := by
  cases hg : getUser s i <;> simp [updateUserWalletBalance, hg]

@[simp] theorem updateUserWalletBalance_resourceRequests (s : StoreState) (i : Nat) (amt : ℚ) :
    (updateUserWalletBalance s i amt).2.resourceRequests = s.resourceRequests := by
  cases hg : getUser s i <;> simp [updateUserWalletBalance, hg]

@[simp] theorem updateUserWalletBalance_nextDonationId (s : StoreState) (i : Nat) (amt : ℚ) :
    (updateUserWalletBalance s i amt).2.nextDonationId = s.nextDonationId := by
  cases hg : getUser s i <;> simp [updateUserWalletBalance, hg]

@[simp] theorem updateUserWalletBalance_nextNotificationId (s : StoreState) (i : Nat) (amt : ℚ) :
    (updateUserWalletBalance s i amt).2.nextNotificationId = s.nextNotificationId := by
  cases hg : getUser s i <;> simp [updateUserWalletBalance, hg]

@[simp] theorem createDonation_users (s : StoreState) (d : DonationInsert) :
    (createDonation s d).2.users = s.users := rfl

@[simp] theorem createDonation_notifications (s : StoreState) (d : DonationInsert) :
    (createDonation s d).2.notifications = s.notifications := rfl

@[simp] theorem createNotification_users (s : StoreState) (n : NotificationInsert) :
    (createNotification s n).2.users = s.users := rfl

@[simp] theorem createNotification_donations (s : StoreState) (n : NotificationInsert) :
    (createNotification s n).2.donations = s.donations := rfl

@[simp] theorem createEmergency_users (s : StoreState) (e : EmergencyInsert) :
    (createEmergency s e).2.users = s.users := rfl

@[simp] theorem createEmergency_notifications (s : StoreState) (e : EmergencyInsert) :
    (createEmergency s e).2.notifications = s.notifications := rfl

/-! ## Lookup lemmas for wallet updates -/

theorem getUser_updateWallet_self (s : StoreState) (i : Nat) (amt : ℚ) (d : User)
    (hd : getUser s i = some d) :
    getUser (updateUserWalletBalance s i amt).2 i
      = some { d with walletBalance := some (d.walletBalance.getD 0 + amt) } := by
  have hd' : s.users.find? (fun v : User => v.id == i) = some d := hd
  have hid : d.id = i := by simpa using List.find?_some hd'
  simp only [updateUserWalletBalance, getUser, hd']
  exact find?_replace_of_eq (fun v : User => v.id) s.users i _ d hd' (by simpa using hid)

theorem getUser_updateWallet_other (s : StoreState) (i j : Nat) (amt : ℚ)
    (hne : j ≠ i) :
    getUser (updateUserWalletBalance s i amt).2 j = getUser s j := by
  cases hg : getUser s i with
  | none => simp [updateUserWalletBalance, hg]
  | some d =>
    have hg' : s.users.find? (fun v : User => v.id == i) = some d := hg
    have hid : d.id = i := by simpa using List.find?_some hg'
    simp only [updateUserWalletBalance, getUser, hg']
    exact find?_replace_of_ne (fun v : User => v.id) s.users i j _
      (by simpa using hid) hne

@[simp] theorem donationWalletPhase_donations (s : StoreState) (i : Nat)
    (p : DonationPayload) : (donationWalletPhase s i p).donations = s.donations := by
  unfold donationWalletPhase
  split <;> simp

@[simp] theorem donationWalletPhase_notifications (s : StoreState) (i : Nat)
    (p : DonationPayload) :
    (donationWalletPhase s i p).notifications = s.notifications := by
  unfold donationWalletPhase
  split <;> simp

@[simp] theorem donationWalletPhase_nextDonationId (s : StoreState) (i : Nat)
    (p : DonationPayload) :
    (donationWalletPhase s i p).nextDonationId = s.nextDonationId := by
  unfold donationWalletPhase
  split <;> simp

@[simp] theorem donationNotifyPhase_users (s : StoreState) (actor : User)
    (p : DonationPayload) : (donationNotifyPhase s actor p).users = s.users := by
  cases hg : getUser s p.recipientId <;> simp [donationNotifyPhase, hg]

@[simp] theorem donationNotifyPhase_donations (s : StoreState) (actor : User)
    (p : DonationPayload) : (donationNotifyPhase s actor p).donations = s.donations := by
  cases hg : getUser s p.recipientId <;> simp [donationNotifyPhase, hg]

@[simp] theorem getUser_donationNotifyPhase (s : StoreState) (actor : User)
    (p : DonationPayload) (i : Nat) :
    getUser (donationNotifyPhase s actor p) i = getUser s i := by
  simp only [getUser, donationNotifyPhase_users]

@[simp] theorem getUser_createDonation (s : StoreState) (d : DonationInsert) (i : Nat) :
    getUser (createDonation s d).2 i = getUser s i := rfl

/-! ## Claim theorems -/

/-- **C5.** For every actor whose role is not fire_station ("firestation"),
`createResourceRequest` and `createEmergency` return an Unauthorized error and
the store is unchanged (no ResourceRequest or Emergency entity is persisted). -/
theorem nonFireStation_request_emergency_unauthorized
    (s : StoreState) (actor : User) (pr : RequestPayload) (pe : EmergencyPayload)
    (h : actor.userType ≠ "firestation") :
    createResourceRequestRoute s actor pr
      = (ApiResult.unauthorized "Only fire stations can create resource requests", s)
    ∧ createEmergencyRoute s actor pe
      = (ApiResult.unauthorized "Only fire stations can create emergencies", s) := by
  have hb : (actor.userType != "firestation") = true := by simpa using h
  exact ⟨by simp [createResourceRequestRoute, hb],
         by simp [createEmergencyRoute, hb]⟩

/-- Witness for C5: a resident is rejected by both routes and the store is unchanged. -/
theorem nonFireStation_request_emergency_unauthorized_witness :
    createResourceRequestRoute baseState resident1 ⟨"Water", 50, "high", none⟩
      = (ApiResult.unauthorized "Only fire stations can create resource requests",
         baseState)
    ∧ createEmergencyRoute baseState resident1 ⟨"Fire", "Big fire", "high", "Main St", none⟩
      = (ApiResult.unauthorized "Only fire stations can create emergencies", baseState) :=
  nonFireStation_request_emergency_unauthorized baseState resident1
    ⟨"Water", 50, "high", none⟩ ⟨"Fire", "Big fire", "high", "Main St", none⟩
    (by decide)

/-- **C7.** `updateResourceRequestStatus` (the PATCH route) rejects every status
outside {pending, fulfilled, cancelled} with an InvalidInput error leaving the
store unchanged, and returns a NotFound error (store unchanged) for every
missing request id when the status is in the set (the status check runs first). -/
theorem updateRequestStatus_rejects_invalid_and_missing
    (s : StoreState) (requestId : Nat) (status : String) :
    (status ∉ validRequestStatuses →
      updateResourceRequestStatusRoute s requestId status
        = (ApiResult.invalidInput "Invalid status", s))
    ∧ (status ∈ validRequestStatuses →
       s.resourceRequests.find? (fun r => r.id == requestId) = none →
       updateResourceRequestStatusRoute s requestId status
        = (ApiResult.notFound "Resource request not found", s)) := by
  constructor
  · intro h
    have hb : validRequestStatuses.contains status = false := by
      rw [← Bool.not_eq_true]
      intro hc
      exact h (by simpa using hc)
    unfold updateResourceRequestStatusRoute
    rw [hb]
    rfl
  · intro hmem hfind
    have hb : validRequestStatuses.contains status = true := by simpa using hmem
    unfold updateResourceRequestStatusRoute
    rw [hb]
    simp only [updateResourceRequestStatus, hfind]
    rfl

/-- Witness for C7: a bogus status is rejected, and a valid status on a missing
id yields NotFound, both leaving the store unchanged. -/
theorem updateRequestStatus_rejects_witness :
    updateResourceRequestStatusRoute baseState 1 "bogus"
      = (ApiResult.invalidInput "Invalid status", baseState)
    ∧ updateResourceRequestStatusRoute baseState 99 "pending"
      = (ApiResult.notFound "Resource request not found", baseState) :=
  ⟨(updateRequestStatus_rejects_invalid_and_missing baseState 1 "bogus").1 (by decide),
   (updateRequestStatus_rejects_invalid_and_missing baseState 99 "pending").2
     (by decide) (by decide)⟩

theorem markNotificationAsRead_notifications_found (s : StoreState) (nid : Nat)
    (n : Notification)
    (h : s.notifications.find? (fun v => v.id == nid) = some n) :
    (markNotificationAsRead s nid).2.notifications
      = s.notifications.map (fun v => if v.id == nid then { n with read := true } else v) := by
  simp only [markNotificationAsRead, h]

/-- **C9.** `markNotificationAsRead` is idempotent: for every existing
notification, the first call returns it with `read = true` and stores it with
`read = true`, and a second call succeeds (returns the record rather than
NotFound) and again leaves the stored record with `read = true`. -/
theorem markNotificationRead_idempotent (s : StoreState) (nid : Nat)
    (n : Notification)
    (h : s.notifications.find? (fun v => v.id == nid) = some n) :
    (markNotificationAsRead s nid).1 = some { n with read := true }
    ∧ (markNotificationAsRead s nid).2.notifications.find? (fun v => v.id == nid)
        = some { n with read := true }
    ∧ (markNotificationAsRead (markNotificationAsRead s nid).2 nid).1
        = some { n with read := true }
    ∧ (markNotificationAsRead (markNotificationAsRead s nid).2 nid).2.notifications.find?
        (fun v => v.id == nid) = some { n with read := true } := by
  have hid : n.id = nid := by simpa using List.find?_some h
  have h1a : (markNotificationAsRead s nid).1 = some { n with read := true } := by
    simp only [markNotificationAsRead, h]
  have h1b := markNotificationAsRead_notifications_found s nid n h
  have hfind2 : ((markNotificationAsRead s nid).2.notifications).find?
      (fun v => v.id == nid) = some { n with read := true } := by
    rw [h1b]
    exact find?_replace_of_eq (fun v : Notification => v.id) s.notifications nid _ n h
      (by simpa using hid)
  refine ⟨h1a, hfind2, ?_, ?_⟩
  · generalize hS : (markNotificationAsRead s nid).2 = s1 at hfind2 ⊢
    simp only [markNotificationAsRead, hfind2]
  · generalize hS : (markNotificationAsRead s nid).2 = s1 at hfind2 ⊢
    rw [markNotificationAsRead_notifications_found s1 nid _ hfind2]
    exact find?_replace_of_eq (fun v : Notification => v.id) s1.notifications nid _ _
      hfind2 (by simpa using hid)

theorem updateUserWalletBalance_missing (s : StoreState) (i : Nat) (amt : ℚ)
    (hg : getUser s i = none) : updateUserWalletBalance s i amt = (none, s) := by
  simp only [updateUserWalletBalance, hg]

theorem walletPhase_monetary (s : StoreState) (donorId : Nat) (p : DonationPayload)
    (a : ℚ) (c : String) (d r : User)
    (hamt : p.amount = some a) (hcur : p.currency = some c) (ha : a ≠ 0) (hc : c ≠ "")
    (hd : getUser s donorId = some d) (hr : getUser s p.recipientId = some r)
    (hne : p.recipientId ≠ donorId) :
    getUser (donationWalletPhase s donorId p) donorId
        = some { d with walletBalance := some (d.walletBalance.getD 0 + -a) }
    ∧ getUser (donationWalletPhase s donorId p) p.recipientId
        = some { r with walletBalance := some (r.walletBalance.getD 0 + a) } := by
  have hcond : (truthyNum p.amount && truthyStr p.currency) = true := by
    rw [hamt, hcur]
    simp [truthyNum, truthyStr, ha, hc]
  have hgd : p.amount.getD 0 = a := by rw [hamt]; rfl
  have hstep : donationWalletPhase s donorId p
      = (updateUserWalletBalance
          (updateUserWalletBalance s donorId (-a)).2 p.recipientId a).2 := by
    unfold donationWalletPhase
    rw [hcond, hgd]
    rfl
  rw [hstep]
  constructor
  · rw [getUser_updateWallet_other _ p.recipientId donorId a (Ne.symm hne)]
    exact getUser_updateWallet_self s donorId (-a) d hd
  · have hr1 : getUser (updateUserWalletBalance s donorId (-a)).2 p.recipientId
        = some r := by
      rw [getUser_updateWallet_other _ donorId p.recipientId (-a) hne]
      exact hr
    exact getUser_updateWallet_self _ p.recipientId a r hr1

theorem walletPhase_missing_recipient (s : StoreState) (donorId : Nat)
    (p : DonationPayload) (a : ℚ) (c : String) (d : User)
    (hamt : p.amount = some a) (hcur : p.currency = some c) (ha : a ≠ 0) (hc : c ≠ "")
    (hd : getUser s donorId = some d) (hrnone : getUser s p.recipientId = none) :
    getUser (donationWalletPhase s donorId p) donorId
        = some { d with walletBalance := some (d.walletBalance.getD 0 + -a) }
    ∧ getUser (donationWalletPhase s donorId p) p.recipientId = none := by
  have hne : p.recipientId ≠ donorId := by
    intro he
    rw [he, hd] at hrnone
    exact Option.noConfusion hrnone
  have hcond : (truthyNum p.amount && truthyStr p.currency) = true := by
    rw [hamt, hcur]
    simp [truthyNum, truthyStr, ha, hc]
  have hgd : p.amount.getD 0 = a := by rw [hamt]; rfl
  have hr1 : getUser (updateUserWalletBalance s donorId (-a)).2 p.recipientId = none := by
    rw [getUser_updateWallet_other _ donorId p.recipientId (-a) hne]
    exact hrnone
  have hstep : donationWalletPhase s donorId p
      = (updateUserWalletBalance
          (updateUserWalletBalance s donorId (-a)).2 p.recipientId a).2 := by
    unfold donationWalletPhase
    rw [hcond, hgd]
    rfl
  rw [hstep, updateUserWalletBalance_missing _ p.recipientId a hr1]
  exact ⟨getUser_updateWallet_self s donorId (-a) d hd, hr1⟩

/-- **C1 counterexample.** A monetary self-donation (donor = recipient = user 1,
amount 20) succeeds and persists the pending donation, but the donor's balance
ends at 100 + -20 + 20 = 100, unchanged rather than decreased by 20: the claim
fails when D = R. -/
theorem selfDonation_counterexample :
    (createDonationRoute baseState resident1 ⟨1, none, none, some 20, some "USDC"⟩).1
        = ApiResult.ok (routeDonation baseState resident1 ⟨1, none, none, some 20, some "USDC"⟩)
    ∧ getUser (createDonationRoute baseState resident1
          ⟨1, none, none, some 20, some "USDC"⟩).2 1
        = some { resident1 with walletBalance := some (((100 : ℚ) + -20) + 20) }
    ∧ ((100 : ℚ) + -20) + 20 = 100
    ∧ (100 : ℚ) ≠ 100 - 20 := by
  refine ⟨rfl, rfl, by norm_num, by norm_num⟩

/-- **C1 amended.** For every monetary donation (amount `a`, non-empty currency)
from donor D to a distinct existing recipient R, the route succeeds, D's balance
decreases by exactly `a`, R's balance increases by exactly `a`, and the donation
record is persisted with status "pending". -/
theorem monetaryDonation_transfers (s : StoreState) (actor : User)
    (p : DonationPayload) (a : ℚ) (c : String) (d r : User) (db rb : ℚ)
    (hamt : p.amount = some a) (hcur : p.currency = some c) (hc : c ≠ "")
    (hd : getUser s actor.id = some d) (hdb : d.walletBalance = some db)
    (hr : getUser s p.recipientId = some r) (hrb : r.walletBalance = some rb)
    (hne : p.recipientId ≠ actor.id) :
    (createDonationRoute s actor p).1 = ApiResult.ok (routeDonation s actor p)
    ∧ (routeDonation s actor p).status = "pending"
    ∧ (createDonationRoute s actor p).2.donations
        = s.donations ++ [routeDonation s actor p]
    ∧ getUser (createDonationRoute s actor p).2 actor.id
        = some { d with walletBalance := some (db - a) }
    ∧ getUser (createDonationRoute s actor p).2 p.recipientId
        = some { r with walletBalance := some (rb + a) } := by
  by_cases ha : a = 0
  · subst ha
    have hw : donationWalletPhase s actor.id p = s := by
      unfold donationWalletPhase
      rw [hamt]
      simp [truthyNum]
    refine ⟨?_, rfl, ?_, ?_, ?_⟩
    · simp [createDonationRoute, hw, createDonation, routeDonation]
    · simp [createDonationRoute, hw, createDonation, routeDonation]
    · simp only [createDonationRoute, hw, createDonation, getUser_donationNotifyPhase,
        getUser_createDonation]
      rw [sub_zero, ← hdb]
      exact hd
    · simp only [createDonationRoute, hw, createDonation, getUser_donationNotifyPhase,
        getUser_createDonation]
      rw [add_zero, ← hrb]
      exact hr
  · obtain ⟨hwd, hwr⟩ := walletPhase_monetary s actor.id p a c d r hamt hcur ha hc hd hr hne
    refine ⟨?_, rfl, ?_, ?_, ?_⟩
    · simp [createDonationRoute, createDonation, routeDonation]
    · simp [createDonationRoute, createDonation, routeDonation]
    · have hbr : getUser (createDonationRoute s actor p).2 actor.id
          = getUser (donationWalletPhase s actor.id p) actor.id := by
        simp only [createDonationRoute, createDonation, getUser_donationNotifyPhase]
        rfl
      rw [hbr, hwd, hdb]
      simp [sub_eq_add_neg]
    · have hbr : getUser (createDonationRoute s actor p).2 p.recipientId
          = getUser (donationWalletPhase s actor.id p) p.recipientId := by
        simp only [createDonationRoute, createDonation, getUser_donationNotifyPhase]
        rfl
      rw [hbr, hwr, hrb]
      simp

/-- Witness for the amended C1: the spec scenario — resident (balance 100)
donates 20 USDC to Station-9 (balance 0): donor ends at 80, station at 20,
donation stored with status "pending". -/
theorem monetaryDonation_transfers_witness :
    (createDonationRoute baseState resident1 ⟨2, none, none, some 20, some "USDC"⟩).1
        = ApiResult.ok (routeDonation baseState resident1 ⟨2, none, none, some 20, some "USDC"⟩)
    ∧ (routeDonation baseState resident1 ⟨2, none, none, some 20, some "USDC"⟩).status
        = "pending"
    ∧ (createDonationRoute baseState resident1 ⟨2, none, none, some 20, some "USDC"⟩).2.donations
        = baseState.donations
          ++ [routeDonation baseState resident1 ⟨2, none, none, some 20, some "USDC"⟩]
    ∧ getUser (createDonationRoute baseState resident1
          ⟨2, none, none, some 20, some "USDC"⟩).2 1
        = some { resident1 with walletBalance := some ((100 : ℚ) - 20) }
    ∧ getUser (createDonationRoute baseState resident1
          ⟨2, none, none, some 20, some "USDC"⟩).2 2
        = some { station2 with walletBalance := some ((0 : ℚ) + 20) } :=
  monetaryDonation_transfers baseState resident1 ⟨2, none, none, some 20, some "USDC"⟩
    20 "USDC" resident1 station2 100 0 rfl rfl (by decide) rfl rfl rfl rfl (by decide)

/-- **C6 counterexample.** A monetary donation to the nonexistent recipient 99
succeeds (201), persists the donation, and debits the donor from 100 to 80:
the claim that the operation fails with nothing persisted is false. -/
theorem donation_missing_recipient_counterexample :
    getUser baseState 99 = none
    ∧ (createDonationRoute baseState resident1 ⟨99, none, none, some 20, some "USD"⟩).1
        = ApiResult.ok (routeDonation baseState resident1 ⟨99, none, none, some 20, some "USD"⟩)
    ∧ (createDonationRoute baseState resident1
          ⟨99, none, none, some 20, some "USD"⟩).2.donations.length = 1
    ∧ getUser (createDonationRoute baseState resident1
          ⟨99, none, none, some 20, some "USD"⟩).2 1
        = some { resident1 with walletBalance := some ((100 : ℚ) + -20) }
    ∧ (100 : ℚ) + -20 ≠ 100 := by
  refine ⟨rfl, rfl, rfl, rfl, by norm_num⟩

/-- **C6 amended.** `createDonation` never checks recipient existence: with a
nonexistent recipientId the operation still succeeds and persists the pending
donation; for a monetary donation the donor is debited while nobody is
credited, and only the recipient notification is skipped. -/
theorem donation_missing_recipient_succeeds (s : StoreState) (actor : User)
    (p : DonationPayload) (a : ℚ) (c : String) (d : User) (db : ℚ)
    (hamt : p.amount = some a) (hcur : p.currency = some c) (ha : a ≠ 0) (hc : c ≠ "")
    (hd : getUser s actor.id = some d) (hdb : d.walletBalance = some db)
    (hrnone : getUser s p.recipientId = none) :
    (createDonationRoute s actor p).1 = ApiResult.ok (routeDonation s actor p)
    ∧ (createDonationRoute s actor p).2.donations
        = s.donations ++ [routeDonation s actor p]
    ∧ getUser (createDonationRoute s actor p).2 actor.id
        = some { d with walletBalance := some (db - a) }
    ∧ (createDonationRoute s actor p).2.notifications = s.notifications := by
  obtain ⟨hwd, hwr⟩ :=
    walletPhase_missing_recipient s actor.id p a c d hamt hcur ha hc hd hrnone
  have hnotify : ∀ s2 : StoreState, getUser s2 p.recipientId = none →
      donationNotifyPhase s2 actor p = s2 := by
    intro s2 hg2
    unfold donationNotifyPhase
    rw [hg2]
  refine ⟨?_, ?_, ?_, ?_⟩
  · simp [createDonationRoute, createDonation, routeDonation]
  · simp [createDonationRoute, createDonation, routeDonation]
  · have hbr : getUser (createDonationRoute s actor p).2 actor.id
        = getUser (donationWalletPhase s actor.id p) actor.id := by
      simp only [createDonationRoute, createDonation, getUser_donationNotifyPhase]
      rfl
    rw [hbr, hwd, hdb]
    simp [sub_eq_add_neg]
  · simp only [createDonationRoute]
    rw [hnotify _ (by simp only [getUser_createDonation]; exact hwr)]
    simp [createDonation]

/-- Witness for the amended C6: donation of 20 USD to missing recipient 99. -/
theorem donation_missing_recipient_succeeds_witness :
    (createDonationRoute baseState resident1 ⟨99, none, none, some 20, some "USD"⟩).1
        = ApiResult.ok (routeDonation baseState resident1 ⟨99, none, none, some 20, some "USD"⟩)
    ∧ (createDonationRoute baseState resident1
          ⟨99, none, none, some 20, some "USD"⟩).2.donations
        = baseState.donations
          ++ [routeDonation baseState resident1 ⟨99, none, none, some 20, some "USD"⟩]
    ∧ getUser (createDonationRoute baseState resident1
          ⟨99, none, none, some 20, some "USD"⟩).2 1
        = some { resident1 with walletBalance := some ((100 : ℚ) - 20) }
    ∧ (createDonationRoute baseState resident1
          ⟨99, none, none, some 20, some "USD"⟩).2.notifications
        = baseState.notifications :=
  donation_missing_recipient_succeeds baseState resident1
    ⟨99, none, none, some 20, some "USD"⟩ 20 "USD" resident1 100
    rfl rfl (by norm_num) (by decide) rfl rfl rfl

/-- **C2 (code-bug evidence).** No exclusivity validation exists: a payload
populating BOTH donation-kind field groups and a payload populating NEITHER are
both accepted by `createDonation` and persisted; no InvariantViolation error is
ever produced (the route has no such outcome). -/
theorem donation_no_exclusivity_validation :
    (createDonationRoute baseState resident1 ⟨2, some "Water", some 5, some 10, some "USD"⟩).1
        = ApiResult.ok (routeDonation baseState resident1
            ⟨2, some "Water", some 5, some 10, some "USD"⟩)
    ∧ (createDonationRoute baseState resident1
          ⟨2, some "Water", some 5, some 10, some "USD"⟩).2.donations.length = 1
    ∧ (createDonationRoute baseState resident1 ⟨2, none, none, none, none⟩).1
        = ApiResult.ok (routeDonation baseState resident1 ⟨2, none, none, none, none⟩)
    ∧ (createDonationRoute baseState resident1
          ⟨2, none, none, none, none⟩).2.donations.length = 1 := by
  decide

/-- **C4 counterexample.** A fire station whose stored range is ["", "9"]
contains the code "5" under the spec's string comparison, yet the resolver
returns none (the empty range start fails the JS truthiness guard): "returns
none exactly when no roster entry's range contains C" is false. -/
theorem pinCode_resolver_empty_range_counterexample :
    stationEmptyRange.userType = "firestation"
    ∧ specRangeContains stationEmptyRange "5" = true
    ∧ emptyRangeState.users = [stationEmptyRange]
    ∧ getFireStationsByPinCode emptyRangeState "5" = none := by
  decide

/-- **C4 amended.** The resolver returns the first roster entry (in roster
order) that is a fire station with PRESENT AND NON-EMPTY range bounds
satisfying start ≤ C ≤ end (JS string order), and returns none exactly when no
entry passes that test (entries with empty-string bounds are skipped). -/
theorem pinCode_resolver_first_match (s : StoreState) (code : String) :
    (∀ u, getFireStationsByPinCode s code = some u ↔
      stationMatches code u = true
        ∧ ∃ l1 l2, s.users = l1 ++ u :: l2 ∧ ∀ v ∈ l1, stationMatches code v = false)
    ∧ (getFireStationsByPinCode s code = none ↔
        ∀ u ∈ s.users, stationMatches code u = false) := by
  have hdef : getFireStationsByPinCode s code = s.users.find? (stationMatches code) :=
    rfl
  constructor
  · intro u
    rw [hdef, List.find?_eq_some]
    simp only [Bool.not_eq_true']
  · rw [hdef, List.find?_eq_none]
    simp only [Bool.not_eq_true]

/-- **C3 counterexample.** Request 1 already has the terminal status
"fulfilled", yet a PATCH back to "pending" succeeds and stores "pending":
the claim that no call can move a terminal request back to "pending" is false. -/
theorem terminalRequest_moves_backward_counterexample :
    fulfilledRequest.status = "fulfilled"
    ∧ (updateResourceRequestStatusRoute baseState 1 "pending").1
        = ApiResult.ok { fulfilledRequest with status := "pending" }
    ∧ (updateResourceRequestStatusRoute baseState 1 "pending").2.resourceRequests.map
        (fun r => r.status) = ["pending"] := by
  decide

/-- **C3 amended.** `updateResourceRequestStatus` applies any status in
{pending, fulfilled, cancelled} to an existing request regardless of its
current status (including backward transitions out of "fulfilled" or
"cancelled"); no transition check exists. -/
theorem updateRequestStatus_unrestricted (s : StoreState) (requestId : Nat)
    (status : String) (r : ResourceRequest)
    (hst : status ∈ validRequestStatuses)
    (hr : s.resourceRequests.find? (fun v => v.id == requestId) = some r) :
    (updateResourceRequestStatusRoute s requestId status).1
        = ApiResult.ok { r with status := status }
    ∧ (updateResourceRequestStatusRoute s requestId status).2.resourceRequests.find?
        (fun v => v.id == requestId) = some { r with status := status } := by
  have hb : validRequestStatuses.contains status = true := by simpa using hst
  have hid : r.id = requestId := by simpa using List.find?_some hr
  constructor
  · unfold updateResourceRequestStatusRoute
    rw [hb]
    simp only [updateResourceRequestStatus, hr]
    rfl
  · unfold updateResourceRequestStatusRoute
    rw [hb]
    simp only [updateResourceRequestStatus, hr]
    exact find?_replace_of_eq (fun v : ResourceRequest => v.id) s.resourceRequests
      requestId _ r hr (by simpa using hid)

/-- Witness for the amended C3: the fulfilled request is moved back to "pending". -/
theorem updateRequestStatus_unrestricted_witness :
    (updateResourceRequestStatusRoute baseState 1 "pending").1
        = ApiResult.ok { fulfilledRequest with status := "pending" }
    ∧ (updateResourceRequestStatusRoute baseState 1 "pending").2.resourceRequests.find?
        (fun v => v.id == 1) = some { fulfilledRequest with status := "pending" } :=
  updateRequestStatus_unrestricted baseState 1 "pending" fulfilledRequest
    (by decide) (by decide)

/-- **C10.** A donation payload with `amount = 0` and a currency set performs no
wallet update at all (the users table is unchanged, so both balances are
unchanged) because the monetary branch tests JS truthiness of the amount, yet
the donation record is still persisted (with status "pending"). -/
theorem zeroAmount_donation_skips_wallet (s : StoreState) (actor : User)
    (p : DonationPayload) (c : String)
    (hamt : p.amount = some 0) (hcur : p.currency = some c) :
    (createDonationRoute s actor p).2.users = s.users
    ∧ (createDonationRoute s actor p).1 = ApiResult.ok (routeDonation s actor p)
    ∧ (createDonationRoute s actor p).2.donations
        = s.donations ++ [routeDonation s actor p] := by
  have hw : donationWalletPhase s actor.id p = s := by
    unfold donationWalletPhase
    rw [hamt]
    simp [truthyNum]
  refine ⟨?_, ?_, ?_⟩
  · simp [createDonationRoute, hw, createDonation]
  · simp [createDonationRoute, hw, createDonation, routeDonation]
  · simp [createDonationRoute, hw, createDonation, routeDonation]

/-- Witness for C10: a zero-amount USDC donation leaves every balance unchanged
but is persisted. -/
theorem zeroAmount_donation_skips_wallet_witness :
    (createDonationRoute baseState resident1 ⟨2, none, none, some 0, some "USDC"⟩).2.users
        = baseState.users
    ∧ (createDonationRoute baseState resident1 ⟨2, none, none, some 0, some "USDC"⟩).1
        = ApiResult.ok (routeDonation baseState resident1 ⟨2, none, none, some 0, some "USDC"⟩)
    ∧ (createDonationRoute baseState resident1 ⟨2, none, none, some 0, some "USDC"⟩).2.donations
        = baseState.donations
          ++ [routeDonation baseState resident1 ⟨2, none, none, some 0, some "USDC"⟩] :=
  zeroAmount_donation_skips_wallet baseState resident1
    ⟨2, none, none, some 0, some "USDC"⟩ "USDC" rfl rfl

theorem createEmergencyRoute_eq (s : StoreState) (actor : User) (p : EmergencyPayload)
    (hrole : actor.userType = "firestation") (hsev : validSeverity p.severity = true) :
    createEmergencyRoute s actor p
      = (ApiResult.ok (createEmergency s
            ⟨p.title, p.description, actor.id, p.severity, p.location, p.resourcesNeeded⟩).1,
         ((getAllFireStations (createEmergency s
              ⟨p.title, p.description, actor.id, p.severity, p.location,
                p.resourcesNeeded⟩).2).filter (fun st => st.id != actor.id)).foldl
           (fun acc st => (createNotification acc (emergencyNotifInsert actor p.title st)).2)
           (createEmergency s
             ⟨p.title, p.description, actor.id, p.severity, p.location,
               p.resourcesNeeded⟩).2) := by
  have hb : (actor.userType != "firestation") = false := by simp [hrole]
  have hs2 : (!(validSeverity p.severity)) = false := by simp [hsev]
  unfold createEmergencyRoute
  rw [hb, hs2]
  rfl

theorem emergency_fanout_notifications (actor : User) (ttl : String) :
    ∀ (l : List User) (s : StoreState),
      ∃ L : List Notification,
        (l.foldl (fun acc st =>
            (createNotification acc (emergencyNotifInsert actor ttl st)).2) s).notifications
          = s.notifications ++ L
        ∧ L.map (fun n => n.userId) = l.map (fun u => u.id)
        ∧ ∀ n ∈ L, n.type = "emergency" ∧ n.read = false := by
  intro l
  induction l with
  | nil => exact fun s => ⟨[], by simp, rfl, by simp⟩
  | cons a t ih =>
    intro s
    obtain ⟨L, h1, h2, h3⟩ :=
      ih (createNotification s (emergencyNotifInsert actor ttl a)).2
    refine ⟨⟨s.nextNotificationId, a.id, "Emergency Alert",
             actor.name ++ " reported: " ++ ttl, "emergency", false⟩ :: L, ?_, ?_, ?_⟩
    · rw [List.foldl_cons, h1]
      simp [createNotification, emergencyNotifInsert]
    · simp [h2]
    · intro n hn
      rcases List.mem_cons.mp hn with rfl | hn'
      · exact ⟨rfl, rfl⟩
      · exact h3 n hn'

/-- **C8.** A successful `createEmergency` by a fire station creates exactly one
notification of type "emergency" with `read = false` for every fire station in
the roster other than the reporter, and none for the reporter. -/
theorem emergency_notifies_other_stations (s : StoreState) (actor : User)
    (p : EmergencyPayload) (hrole : actor.userType = "firestation")
    (hsev : validSeverity p.severity = true)
    (hnd : (s.users.map (fun u => u.id)).Nodup) :
    ∃ em L,
      (createEmergencyRoute s actor p).1 = ApiResult.ok em
      ∧ (createEmergencyRoute s actor p).2.notifications = s.notifications ++ L
      ∧ (∀ n ∈ L, n.type = "emergency" ∧ n.read = false ∧ n.userId ≠ actor.id)
      ∧ ∀ u ∈ s.users,
          (L.filter (fun n => n.userId == u.id)).length
            = if u.userType = "firestation" ∧ u.id ≠ actor.id then 1 else 0 := by
  have hroute := createEmergencyRoute_eq s actor p hrole hsev
  obtain ⟨L, h1, h2, h3⟩ := emergency_fanout_notifications actor p.title
    ((getAllFireStations (createEmergency s
        ⟨p.title, p.description, actor.id, p.severity, p.location,
          p.resourcesNeeded⟩).2).filter (fun st => st.id != actor.id))
    (createEmergency s
      ⟨p.title, p.description, actor.id, p.severity, p.location, p.resourcesNeeded⟩).2
  refine ⟨(createEmergency s
      ⟨p.title, p.description, actor.id, p.severity, p.location,
        p.resourcesNeeded⟩).1, L, ?_, ?_, ?_, ?_⟩
  · rw [hroute]
  · rw [hroute]
    rw [h1]
    rfl
  · intro n hn
    obtain ⟨h3a, h3b⟩ := h3 n hn
    refine ⟨h3a, h3b, ?_⟩
    have hmem : n.userId ∈ L.map (fun n => n.userId) := List.mem_map.mpr ⟨n, hn, rfl⟩
    rw [h2] at hmem
    obtain ⟨st, hst, hid⟩ := List.mem_map.mp hmem
    have := (List.mem_filter.mp hst).2
    rw [← hid]
    simpa using this
  · intro u hu
    rw [length_filter_eq_count_map (fun n : Notification => n.userId) L u.id, h2]
    rw [getAllFireStations, createEmergency_users, List.filter_filter]
    rw [count_key_filter_of_nodup (fun v : User => v.id)
      (fun v => (v.id != actor.id) && (v.userType == "firestation")) u s.users hnd hu]
    by_cases hcond : u.userType = "firestation" ∧ u.id ≠ actor.id
    · rw [if_pos (by simp [hcond.1, hcond.2]), if_pos hcond]
    · rw [if_neg ?_, if_neg hcond]
      simp only [Bool.and_eq_true, bne_iff_ne, beq_iff_eq]
      intro hcc
      exact hcond ⟨hcc.2, hcc.1⟩

/-- Witness for C8: Station-9 (user 2) reports an emergency in `baseState`;
the conclusion is exhibited at that concrete input. -/
theorem emergency_notifies_other_stations_witness :
    ∃ em L,
      (createEmergencyRoute baseState station2
          ⟨"Fire", "Big fire", "high", "Main St", none⟩).1 = ApiResult.ok em
      ∧ (createEmergencyRoute baseState station2
          ⟨"Fire", "Big fire", "high", "Main St", none⟩).2.notifications
          = baseState.notifications ++ L
      ∧ (∀ n ∈ L, n.type = "emergency" ∧ n.read = false ∧ n.userId ≠ station2.id)
      ∧ ∀ u ∈ baseState.users,
          (L.filter (fun n => n.userId == u.id)).length
            = if u.userType = "firestation" ∧ u.id ≠ station2.id then 1 else 0 :=
  emergency_notifies_other_stations baseState station2
    ⟨"Fire", "Big fire", "high", "Main St", none⟩ rfl (by decide) (by decide)

/-- Witness for C9: marking the concrete unread notification twice. -/
theorem markNotificationRead_idempotent_witness :
    (markNotificationAsRead baseState 1).1 = some { unreadNotification with read := true }
    ∧ (markNotificationAsRead baseState 1).2.notifications.find? (fun v => v.id == 1)
        = some { unreadNotification with read := true }
    ∧ (markNotificationAsRead (markNotificationAsRead baseState 1).2 1).1
        = some { unreadNotification with read := true }
    ∧ (markNotificationAsRead (markNotificationAsRead baseState 1).2 1).2.notifications.find?
        (fun v => v.id == 1) = some { unreadNotification with read := true } :=
  markNotificationRead_idempotent baseState 1 unreadNotification (by decide)

end ResQ
